import Mathlib

/- Verification development for the mods_base options and settings modules
   (src/options.py and src/settings.py).

   Modelling conventions:
   * Python floats are modelled as PyFloat: an exact rational, +inf, -inf,
     or NaN.  float("inf")/float("nan") (any case, optional sign),
     json.load's Infinity, -Infinity and NaN literals, and underscore-grouped
     numeric literals are all representable; magnitude overflow of a string
     conversion to an infinity, and the OverflowError of converting a too-large
     int, happen at the IEEE double boundary 2^1024 - 2^970.  Finite values
     are exact rationals: IEEE rounding of in-range values, subnormal
     underflow, the sign of -0.0 and shortest-float-repr rendering are the
     declared abstractions (none of the claims depend on them).
   * JSON documents (the output of `json.load`) are a three-way mutual
     inductive: values (with int and float literals distinguished, since
     float() treats them differently), arrays, and objects (association
     lists with the distinct keys a parsed JSON object has).
   * Python exceptions are explicit: a coercion that can raise returns an
     `Except PyErr` value, and mutating operations return the new state
     paired with `Option PyErr` (`some e` = the exception `e` escaped after
     the mutations performed so far, matching Python's in-place mutation).
   * The on_change callback machinery of ValueOption.__setattr__ is modelled
     separately (see ValueOptionState / setValueAttr below); the _from_json
     value-trajectory functions model options whose callback is not set. -/

/- Batteries marks the arithmetic of ℚ irreducible; concrete evaluation of
   the model (witnesses, counterexamples) needs it to reduce. -/
attribute [local semireducible] Rat.add Rat.sub Rat.mul Rat.inv

/-- A Python float: an exact finite rational, an infinity, or NaN. -/
inductive PyFloat where
  | fin (q : ℚ) : PyFloat
  | posInf : PyFloat
  | negInf : PyFloat
  | nan : PyFloat
deriving DecidableEq

mutual

inductive JSON where
  | null : JSON
  | bool (b : Bool) : JSON
  | int (n : ℤ) : JSON
  | num (x : PyFloat) : JSON
  | str (s : String) : JSON
  | arr (elems : JSONList) : JSON
  | obj (entries : JSONPairs) : JSON

inductive JSONList where
  | nil : JSONList
  | cons (hd : JSON) (tl : JSONList) : JSONList

inductive JSONPairs where
  | nil : JSONPairs
  | cons (key : String) (val : JSON) (tl : JSONPairs) : JSONPairs

end

/-- Lookup in a parsed JSON object, i.e. Python `d[k]` / `k in d`. -/
def JSONPairs.lookup : JSONPairs → String → Option JSON
  | .nil, _ => none
  | .cons k v tl, key => if k = key then some v else tl.lookup key

/-- Python `key in d` for a dict. -/
def JSONPairs.hasKey (kvs : JSONPairs) (key : String) : Bool :=
  (kvs.lookup key).isSome

/-- Python `d.get(key, default)`. -/
def JSONPairs.lookupD (kvs : JSONPairs) (key : String) (d : JSON) : JSON :=
  (kvs.lookup key).getD d

def JSONPairs.length : JSONPairs → Nat
  | .nil => 0
  | .cons _ _ tl => 1 + tl.length

def JSONList.isNil : JSONList → Bool
  | .nil => true
  | .cons _ _ => false

def JSONPairs.isNil : JSONPairs → Bool
  | .nil => true
  | .cons _ _ _ => false

/-- Python list membership `s in xs` where `s` is a string: equality holds
only against string elements (Python `==` across JSON types is False). -/
def JSONList.containsStr : JSONList → String → Bool
  | .nil, _ => false
  | .cons (.str s) tl, key => if s = key then true else tl.containsStr key
  | .cons _ tl, key => tl.containsStr key

/-- Python exceptions distinguished by the coercion code under study. -/
inductive PyErr where
  | valueError : PyErr
  | typeError : PyErr
  | overflowError : PyErr
deriving DecidableEq

instance {ε α : Type} [DecidableEq ε] [DecidableEq α] : DecidableEq (Except ε α) :=
  fun a b =>
    match a, b with
    | .ok x, .ok y =>
      if h : x = y then isTrue (by rw [h])
      else isFalse (by intro hc; cases hc; exact h rfl)
    | .error e, .error f =>
      if h : e = f then isTrue (by rw [h])
      else isFalse (by intro hc; cases hc; exact h rfl)
    | .ok _, .error _ => isFalse (by intro hc; cases hc)
    | .error _, .ok _ => isFalse (by intro hc; cases hc)

/-- Python truthiness, `bool(x)`, on JSON values: NaN and the infinities
are truthy, 0 and 0.0 are not. -/
def pyTruthy : JSON → Bool
  | .null => false
  | .bool b => b
  | .int n => if n = 0 then false else true
  | .num (.fin q) => if q = 0 then false else true
  | .num _ => true
  | .str s => if s = "" then false else true
  | .arr l => !l.isNil
  | .obj kvs => !kvs.isNil

/-- Python `str.strip()` on the underlying characters (the ASCII whitespace
relevant here; Python also strips a few rarer whitespace characters). -/
def stripChars (cs : List Char) : List Char :=
  ((cs.dropWhile Char.isWhitespace).reverse.dropWhile Char.isWhitespace).reverse

/-- Python `s.strip().lower()` (ASCII lowering; the comparison target of the
boolean coercion, "false", is ASCII). -/
def pyStripLower (s : String) : String :=
  String.mk ((stripChars s.data).map Char.toLower)

/-- Python substring test `needle in hay`. -/
def strContains (hay needle : String) : Bool :=
  if needle = "" then true else (hay.splitOn needle).length > 1

/-- Whether a character list is a valid Python digit group: nonempty digits
with single underscores strictly between digits ("1_000" yes, "1__0", "_1",
"1_" no).  The flag says whether a digit is required next (at the start and
directly after an underscore). -/
def validDigits : List Char → Bool → Bool
  | [], needDigit => !needDigit
  | c :: rest, needDigit =>
    if c = '_' then (if needDigit then false else validDigits rest true)
    else c.isDigit && validDigits rest false

/-- Drop the underscore group separators. -/
def stripUnders (cs : List Char) : List Char :=
  cs.filter (fun c => c ≠ '_')

/-- The value of an all-digit character list. -/
def natOfDigits (cs : List Char) : Nat :=
  cs.foldl (fun acc c => acc * 10 + (c.toNat - 48)) 0

/-- The value of a valid digit group (underscores allowed between digits),
else none. -/
def digitsVal (cs : List Char) : Option Nat :=
  if validDigits cs true then some (natOfDigits (stripUnders cs)) else none

/-- Split a character list at the first character satisfying `p`: the part
before it, and (if found) the part after it. -/
def splitFirst (p : Char → Bool) : List Char → List Char × Option (List Char)
  | [] => ([], none)
  | c :: r =>
    if p c then ([], some r)
    else
      let t := splitFirst p r
      (c :: t.1, t.2)

/-- The mantissa value of `[digits].[digits]` character lists (either side
may be empty but not both). -/
def mantissaVal (ipart : List Char) (fpart : Option (List Char)) : Option ℚ :=
  match fpart with
  | none => (digitsVal ipart).map (fun n => (n : ℚ))
  | some fp =>
    if ipart.isEmpty && fp.isEmpty then none
    else
      match (if ipart.isEmpty then some 0 else digitsVal ipart),
          (if fp.isEmpty then some 0 else digitsVal fp) with
      | some i, some f =>
        some ((i : ℚ) + (f : ℚ) / ((10 : ℚ) ^ (stripUnders fp).length))
      | _, _ => none

/-- Scale by a signed power of ten. -/
def scalePow10 (q : ℚ) (e : Int) : ℚ :=
  if 0 ≤ e then q * (10 : ℚ) ^ e.toNat else q / (10 : ℚ) ^ (-e).toNat

/-- The smallest magnitude at which a correctly rounded conversion to IEEE
double overflows to infinity: 2^1024 - 2^970 (the halfway point above the
largest finite double, which ties to the even 2^1024). -/
def floatOverflowBound : ℚ := ((2 ^ 1024 - 2 ^ 970 : ℕ) : ℚ)

/-- An exactly computed conversion result as a Python float: magnitudes at
or beyond the IEEE double overflow boundary become the infinities. -/
def finOrInf (q : ℚ) : PyFloat :=
  if floatOverflowBound ≤ q then .posInf
  else if q ≤ -floatOverflowBound then .negInf
  else .fin q

/-- Python `float(s)` on a string: strip whitespace, optional sign, then
either an inf/infinity/nan form (any case) or a decimal mantissa with
optional exponent (underscores allowed between digits); values beyond the
IEEE double range give the infinities.  Returns none where Python raises
ValueError. -/
def parsePyFloat (s : String) : Option PyFloat :=
  let cs := stripChars s.data
  let sgncs : Bool × List Char :=
    match cs with
    | '+' :: r => (false, r)
    | '-' :: r => (true, r)
    | r => (false, r)
  let low := sgncs.2.map Char.toLower
  if low = "inf".data || low = "infinity".data then
    some (if sgncs.1 then .negInf else .posInf)
  else if low = "nan".data then some .nan
  else
    let sgn : ℚ := if sgncs.1 then -1 else 1
    let mantExp := splitFirst (fun c => c = 'e' || c = 'E') sgncs.2
    let ipartF := splitFirst (fun c => c = '.') mantExp.1
    match mantissaVal ipartF.1 ipartF.2 with
    | none => none
    | some m =>
      match mantExp.2 with
      | none => some (finOrInf (sgn * m))
      | some ecs =>
        let esgn : Int × List Char :=
          match ecs with
          | '+' :: r => (1, r)
          | '-' :: r => (-1, r)
          | r => (1, r)
        match digitsVal esgn.2 with
        | none => none
        | some e => some (finOrInf (scalePow10 (sgn * m) (esgn.1 * (e : Int))))

/-- Python `float(value)` on a JSON value: float literals pass through
(including the Infinity/NaN ones json.load produces), int literals convert
exactly but raise OverflowError at the IEEE double boundary, booleans
become 0/1, strings are parsed (ValueError on failure), and None, lists and
dicts raise TypeError. -/
def pyFloat : JSON → Except PyErr PyFloat
  | .num x => .ok x
  | .int n =>
    if floatOverflowBound ≤ (n : ℚ) ∨ (n : ℚ) ≤ -floatOverflowBound
    then .error PyErr.overflowError
    else .ok (.fin (n : ℚ))
  | .bool b => .ok (.fin (if b then 1 else 0))
  | .str s =>
    match parsePyFloat s with
    | some x => .ok x
    | none => .error PyErr.valueError
  | .null => .error PyErr.typeError
  | .arr _ => .error PyErr.typeError
  | .obj _ => .error PyErr.typeError

/-- Python `round(x)` on a finite float: round half to even (banker's
rounding). -/
def pyRound (q : ℚ) : ℤ :=
  let f := ⌊q⌋
  let frac := q - (f : ℚ)
  if frac < 1 / 2 then f
  else if 1 / 2 < frac then f + 1
  else if f % 2 = 0 then f else f + 1

/-- Python `round(x)` on a float: an infinity raises OverflowError ("cannot
convert float infinity to integer"), NaN raises ValueError ("cannot convert
float NaN to integer"). -/
def pyRoundExc : PyFloat → Except PyErr ℤ
  | .fin q => .ok (pyRound q)
  | .posInf => .error PyErr.overflowError
  | .negInf => .error PyErr.overflowError
  | .nan => .error PyErr.valueError

/-- Decimal digits of `0 ≤ q < 1`, up to `fuel` of them (terminating
expansions such as those of the claims' inputs fit well inside the fuel). -/
def ratFracDigits : Nat → ℚ → List Char
  | 0, _ => []
  | fuel + 1, q =>
    if q = 0 then []
    else
      let q10 := q * 10
      let d := ⌊q10⌋
      Char.ofNat (48 + d.toNat) :: ratFracDigits fuel (q10 - (d : ℚ))

/-- Rendering of a Python float as str() renders it: "inf"/"-inf"/"nan",
integral values with a trailing ".0", others by decimal expansion
(shortest-float-repr is approximated by the exact expansion). -/
def pyFloatRepr : PyFloat → String
  | .posInf => "inf"
  | .negInf => "-inf"
  | .nan => "nan"
  | .fin q =>
    if q.den = 1 then toString q.num ++ ".0"
    else
      let sign := if q < 0 then "-" else ""
      let a := |q|
      let ip := ⌊a⌋
      sign ++ toString ip ++ "." ++ String.mk (ratFracDigits 32 (a - (ip : ℚ)))

mutual

/-- Python `repr` on JSON values (str of a container shows its elements'
repr). -/
def pyRepr : JSON → String
  | .null => "None"
  | .bool true => "True"
  | .bool false => "False"
  | .int n => toString n
  | .num x => pyFloatRepr x
  | .str s => "\x27" ++ s ++ "\x27"
  | .arr xs => "[" ++ String.intercalate ", " (pyReprList xs) ++ "]"
  | .obj kvs => "\x7b" ++ String.intercalate ", " (pyReprPairs kvs) ++ "\x7d"

def pyReprList : JSONList → List String
  | .nil => []
  | .cons hd tl => pyRepr hd :: pyReprList tl

def pyReprPairs : JSONPairs → List String
  | .nil => []
  | .cons k v tl => ("\x27" ++ k ++ "\x27: " ++ pyRepr v) :: pyReprPairs tl

end

/-- Python `str(value)` on JSON values: identity on strings, repr-like
otherwise. -/
def pyStr : JSON → String
  | .str s => s
  | v => pyRepr v

/- Option dataclasses (src/options.py).  Each structure mirrors the fields
   its _to_json/_from_json/__post_init__ read; the display metadata fields
   (display_name, description, description_title, is_hidden, mod) and
   default_value are never read by the serialization code under study and
   are left out of the embedding.  on_change interception is modelled by
   ValueOptionState/setValueAttr further below. -/

structure SliderOption where
  identifier : String
  value : PyFloat
  min_value : ℚ
  max_value : ℚ
  step : ℚ := 1
  is_integer : Bool := true

structure SpinnerOption where
  identifier : String
  value : String
  choices : List String
  wrap_enabled : Bool := false

structure BoolOption where
  identifier : String
  value : Bool
  true_text : Option String := none
  false_text : Option String := none

structure DropdownOption where
  identifier : String
  value : String
  choices : List String

structure HiddenOption where
  identifier : String
  value : JSON

structure KeybindOption where
  identifier : String
  value : Option String
  is_rebindable : Bool := true

structure ButtonOption where
  identifier : String

mutual

/-- The BaseOption hierarchy as a tagged sum: every concrete option kind of
src/options.py. -/
inductive OptionNode where
  | slider (o : SliderOption) : OptionNode
  | spinner (o : SpinnerOption) : OptionNode
  | boolOpt (o : BoolOption) : OptionNode
  | dropdown (o : DropdownOption) : OptionNode
  | hidden (o : HiddenOption) : OptionNode
  | keybindOpt (o : KeybindOption) : OptionNode
  | button (o : ButtonOption) : OptionNode
  | grouped (identifier : String) (children : OptionNodeList) : OptionNode
  | nested (identifier : String) (children : OptionNodeList) : OptionNode

inductive OptionNodeList where
  | nil : OptionNodeList
  | cons (hd : OptionNode) (tl : OptionNodeList) : OptionNodeList

end

def OptionNode.identifier : OptionNode → String
  | .slider o => o.identifier
  | .spinner o => o.identifier
  | .boolOpt o => o.identifier
  | .dropdown o => o.identifier
  | .hidden o => o.identifier
  | .keybindOpt o => o.identifier
  | .button o => o.identifier
  | .grouped idf _ => idf
  | .nested idf _ => idf

def OptionNodeList.length : OptionNodeList → Nat
  | .nil => 0
  | .cons _ tl => 1 + tl.length

mutual

/-- Whether a slider occurs anywhere in this option (sub)tree. -/
def OptionNode.hasSlider : OptionNode → Bool
  | .slider _ => true
  | .grouped _ ch => ch.hasSliderAmong
  | .nested _ ch => ch.hasSliderAmong
  | _ => false

def OptionNodeList.hasSliderAmong : OptionNodeList → Bool
  | .nil => false
  | .cons hd tl => hd.hasSlider || tl.hasSliderAmong

end

mutual

/-- BaseOption._to_json dispatch: a ValueOption returns its value, a button
returns Ellipsis (modelled as none), and a group returns the dict of its
children's non-absent values. -/
def OptionNode.toJson : OptionNode → Option JSON
  | .slider o => some (.num o.value)
  | .spinner o => some (.str o.value)
  | .boolOpt o => some (.bool o.value)
  | .dropdown o => some (.str o.value)
  | .hidden o => some o.value
  | .keybindOpt o =>
    some (match o.value with | none => .null | some s => .str s)
  | .button _ => none
  | .grouped _ ch => some (.obj ch.toJsonChildren)
  | .nested _ ch => some (.obj ch.toJsonChildren)

/-- The dict comprehension of GroupedOption._to_json / NestedOption._to_json:
children whose serialization is Ellipsis produce no entry. -/
def OptionNodeList.toJsonChildren : OptionNodeList → JSONPairs
  | .nil => .nil
  | .cons hd tl =>
    match hd.toJson with
    | none => tl.toJsonChildren
    | some j => .cons hd.identifier j tl.toJsonChildren

end

/-- The try-block of SliderOption._from_json after float() succeeded with
`x`: `self.value = x` happens first; when the option is integer-flagged,
`round(self.value)` then either stores the rounded int, raises a ValueError
(NaN) that the surrounding except catches - with `x` already stored - or
raises an OverflowError (the infinities) that escapes, also with `x`
already stored. -/
def sliderStore (o : SliderOption) (x : PyFloat) : SliderOption × Option PyErr :=
  let o1 : SliderOption := { o with value := x }
  if o.is_integer then
    match pyRoundExc x with
    | .ok k => ({ o1 with value := .fin (k : ℚ) }, none)
    | .error .valueError => (o1, none)
    | .error e => (o1, some e)
  else (o1, none)

/-- BoolOption._from_json: a string that strips and lowercases to "false" is
replaced by False before the bool() coercion. -/
def boolFromJson (v : JSON) : Bool :=
  match v with
  | .str s => if pyStripLower s = "false" then false else pyTruthy (.str s)
  | _ => pyTruthy v

mutual

/-- BaseOption._from_json dispatch.  Returns the option after the mutations
the Python code performs in place, paired with `some e` when exception `e`
escapes (the only escaping exception in this code is the TypeError of
`float(value)` in SliderOption._from_json, whose `except` clause catches
ValueError alone). -/
def OptionNode.fromJson : OptionNode → JSON → OptionNode × Option PyErr
  | .slider o, v =>
    match pyFloat v with
    | .ok x =>
      let r := sliderStore o x
      (.slider r.1, r.2)
    | .error .valueError => (.slider o, none)
    | .error e => (.slider o, some e)
  | .spinner o, v =>
    let s := pyStr v
    if o.choices.contains s then (.spinner { o with value := s }, none)
    else (.spinner o, none)
  | .boolOpt o, v => (.boolOpt { o with value := boolFromJson v }, none)
  | .dropdown o, v =>
    let s := pyStr v
    if o.choices.contains s then (.dropdown { o with value := s }, none)
    else (.dropdown o, none)
  | .hidden o, v => (.hidden { o with value := v }, none)
  | .keybindOpt o, v =>
    match v with
    | .null => (.keybindOpt { o with value := none }, none)
    | _ => (.keybindOpt { o with value := some (pyStr v) }, none)
  | .button o, _ => (.button o, none)
  | .grouped idf ch, v =>
    match v with
    | .obj kvs =>
      let r := ch.fromJsonChildren kvs
      (.grouped idf r.1, r.2)
    | _ => (.grouped idf ch, none)
  | .nested idf ch, v =>
    match v with
    | .obj kvs =>
      let r := ch.fromJsonChildren kvs
      (.nested idf r.1, r.2)
    | _ => (.nested idf ch, none)

/-- The child loop of GroupedOption._from_json / NestedOption._from_json:
children absent from the incoming dict are skipped; an escaping exception
stops the loop, keeping the mutations made so far. -/
def OptionNodeList.fromJsonChildren : OptionNodeList → JSONPairs → OptionNodeList × Option PyErr
  | .nil, _ => (.nil, none)
  | .cons hd tl, kvs =>
    match kvs.lookup hd.identifier with
    | none =>
      let r := tl.fromJsonChildren kvs
      (.cons hd r.1, r.2)
    | some v =>
      match hd.fromJson v with
      | (hd', none) =>
        let r := tl.fromJsonChildren kvs
        (.cons hd' r.1, r.2)
      | (hd', some e) => (.cons hd' tl, some e)

end

/-- SliderOption.__post_init__ (construction): a step larger than the range
max_value - min_value raises ValueError.  (The non-integral warning it can
also emit is non-fatal and not part of the construction result.) -/
def SliderOption.construct (idf : String) (value mn mx st : ℚ) (isInt : Bool) :
    Except String SliderOption :=
  if st > mx - mn then
    .error "Can't give slider option a step larger than its allowed range"
  else
    .ok { identifier := idf, value := .fin value, min_value := mn, max_value := mx,
          step := st, is_integer := isInt }

/- Settings persistence (src/settings.py).  The Mod and KeybindType records
   collect exactly the attributes default_load_mod_settings and
   default_save_mod_settings read (their defining module is not part of the
   sources under study; no behaviour beyond field access is assumed, and
   Mod.enable is recorded as an event / an is_enabled flip). -/

structure KeybindModel where
  identifier : String
  key : Option String
  is_rebindable : Bool

structure ModModel where
  has_settings_file : Bool
  options : OptionNodeList
  keybinds : List KeybindModel
  auto_enable : Bool
  is_enabled : Bool

/-- The externally visible steps of a settings load, in order. -/
inductive LoadEvent where
  | applyOption (identifier : String) (value : JSON) : LoadEvent
  | setKeybind (identifier : String) (key : Option String) : LoadEvent
  | enableMod : LoadEvent

/-- load_options_dict: for each option in order, skip it when its identifier
is absent from the settings dict, otherwise dispatch the stored value to its
_from_json.  Result: the mutated options, the dispatches made (in order),
and the exception that escaped, if any (which stops the loop). -/
def load_options_dict : OptionNodeList → JSONPairs → OptionNodeList × List LoadEvent × Option PyErr
  | .nil, _ => (.nil, [], none)
  | .cons hd tl, kvs =>
    match kvs.lookup hd.identifier with
    | none =>
      let r := load_options_dict tl kvs
      (.cons hd r.1, r.2.1, r.2.2)
    | some v =>
      match hd.fromJson v with
      | (hd', none) =>
        let r := load_options_dict tl kvs
        (.cons hd' r.1, .applyOption hd.identifier v :: r.2.1, r.2.2)
      | (hd', some e) => (.cons hd' tl, [.applyOption hd.identifier v], some e)

def OptionNodeList.identifiers : OptionNodeList → List String
  | .nil => []
  | .cons hd tl => hd.identifier :: tl.identifiers

/-- The "options" section of default_load_mod_settings: the section value is
passed to load_options_dict untyped, so a non-dict section follows Python's
`in`/indexing semantics: a string section raises TypeError at the first
option whose identifier is one of its substrings (string indexing by string),
a list section at the first identifier contained as an element, and any other
non-dict section at the first membership test (`in` on None/bool/number). -/
def loadOptionsSection (opts : OptionNodeList) (v : JSON) :
    OptionNodeList × List LoadEvent × Option PyErr :=
  match v with
  | .obj kvs => load_options_dict opts kvs
  | .str s =>
    (opts, [], if opts.identifiers.any (fun idf => strContains s idf) then some .typeError else none)
  | .arr xs =>
    (opts, [], if opts.identifiers.any (fun idf => xs.containsStr idf) then some .typeError else none)
  | _ => (opts, [], if opts.length = 0 then none else some .typeError)

/-- The keybind loop of default_load_mod_settings on a dict section: a saved
null clears the key, anything else is assigned after str() coercion. -/
def loadKeybindsObj : List KeybindModel → JSONPairs → List KeybindModel × List LoadEvent
  | [], _ => ([], [])
  | k :: ks, kvs =>
    match kvs.lookup k.identifier with
    | none =>
      let r := loadKeybindsObj ks kvs
      (k :: r.1, r.2)
    | some v =>
      let newKey : Option String := match v with | .null => none | _ => some (pyStr v)
      let r := loadKeybindsObj ks kvs
      ({ k with key := newKey } :: r.1, .setKeybind k.identifier newKey :: r.2)

/-- The "keybinds" section of default_load_mod_settings, with the same
non-dict `in`/indexing semantics as the options section. -/
def loadKeybindsSection (ks : List KeybindModel) (v : JSON) :
    List KeybindModel × List LoadEvent × Option PyErr :=
  match v with
  | .obj kvs =>
    let r := loadKeybindsObj ks kvs
    (r.1, r.2, none)
  | .str s =>
    (ks, [], if ks.any (fun k => strContains s k.identifier) then some .typeError else none)
  | .arr xs =>
    (ks, [], if ks.any (fun k => xs.containsStr k.identifier) then some .typeError else none)
  | _ => (ks, [], if ks.isEmpty then none else some .typeError)

/-- default_load_mod_settings.  `doc` is the parsed top-level object of the
settings file: `none` models "settings_file is None", a missing file, or
malformed content (json.load raising JSONDecodeError), all of which return
without touching the mod.  The result is the mod after the in-place
mutations, the externally visible steps in order, and the escaping
exception, if any. -/
def optionsSectionResult (m : ModModel) (settings : JSONPairs) :
    OptionNodeList × List LoadEvent × Option PyErr :=
  match settings.lookup "options" with
  | some v => loadOptionsSection m.options v
  | none => (m.options, [], none)

def keybindsSectionResult (m : ModModel) (settings : JSONPairs) :
    List KeybindModel × List LoadEvent × Option PyErr :=
  match settings.lookup "keybinds" with
  | some v => loadKeybindsSection m.keybinds v
  | none => (m.keybinds, [], none)

def default_load_mod_settings (m : ModModel) (doc : Option JSONPairs) :
    ModModel × List LoadEvent × Option PyErr :=
  match doc with
  | none => (m, [], none)
  | some settings =>
    let ro := optionsSectionResult m settings
    let m1 : ModModel := { m with options := ro.1 }
    match ro.2.2 with
    | some e => (m1, ro.2.1, some e)
    | none =>
      let rk := keybindsSectionResult m settings
      let m2 : ModModel := { m1 with keybinds := rk.1 }
      match rk.2.2 with
      | some e => (m2, ro.2.1 ++ rk.2.1, some e)
      | none =>
        if m.auto_enable && pyTruthy (settings.lookupD "enabled" (.bool false)) then
          ({ m2 with is_enabled := true }, ro.2.1 ++ rk.2.1 ++ [LoadEvent.enableMod], none)
        else (m2, ro.2.1 ++ rk.2.1, none)

/-- create_options_dict: the identifier-to-value dict of the options whose
_to_json is not Ellipsis. -/
def create_options_dict : OptionNodeList → JSONPairs
  | .nil => .nil
  | .cons hd tl =>
    match hd.toJson with
    | none => create_options_dict tl
    | some j => .cons hd.identifier j (create_options_dict tl)

/-- The keybind loop of default_save_mod_settings: non-rebindable keybinds
are skipped, the rest map identifier to current key (or null). -/
def keybindSettingsList : List KeybindModel → List (String × Option String)
  | [] => []
  | k :: ks =>
    if k.is_rebindable then (k.identifier, k.key) :: keybindSettingsList ks
    else keybindSettingsList ks

/-- The BasicModSettings document: each optional top-level section is `none`
when the corresponding key is never inserted. -/
structure BasicModSettings where
  enabled : Option Bool
  options : Option JSONPairs
  keybinds : Option (List (String × Option String))

/-- What default_save_mod_settings does to the filesystem. -/
inductive SaveAction where
  | noFile : SaveAction
  | deleteFile : SaveAction
  | writeFile (settings : BasicModSettings) : SaveAction

/-- The "options" section built by default_save_mod_settings: present only
when the options list is nonempty and produces a nonempty dict. -/
def saveOptionsSection (opts : OptionNodeList) : Option JSONPairs :=
  if 0 < opts.length then
    let od := create_options_dict opts
    if 0 < od.length then some od else none
  else none

/-- The "keybinds" section built by default_save_mod_settings: present only
when the keybind list is nonempty and some keybind is rebindable. -/
def saveKeybindsSection (ks : List KeybindModel) : Option (List (String × Option String)) :=
  if 0 < ks.length then
    let k2 := keybindSettingsList ks
    if 0 < k2.length then some k2 else none
  else none

/-- default_save_mod_settings: build the (up to) three sections; when the
resulting document is empty, unlink any existing settings file instead of
writing it. -/
def default_save_mod_settings (m : ModModel) : SaveAction :=
  if !m.has_settings_file then .noFile
  else
    let optSec := saveOptionsSection m.options
    let kbSec := saveKeybindsSection m.keybinds
    let enSec : Option Bool := if m.auto_enable then some m.is_enabled else none
    if optSec.isNone && kbSec.isNone && enSec.isNone then .deleteFile
    else .writeFile { enabled := enSec, options := optSec, keybinds := kbSec }

/- The on_change interception of ValueOption.__setattr__ (src/options.py).
   The state of one value option during an assignment to `value`: the stored
   value, whether the _on_change_recursion_guard attribute is present, and an
   instrumentation counter of how many times on_change has been invoked. -/

structure ValueOptionState where
  value : ℚ
  guard : Bool
  calls : Nat
deriving DecidableEq

/-- The body of an on_change callback, as the shapes the reentrancy claim is
about: a callback that itself assigns (a function of the new value) to
.value through the same __setattr__ machinery, or one that does not touch
.value. -/
inductive OnChangeSpec where
  | assignValue (g : ℚ → ℚ) : OnChangeSpec
  | untouched : OnChangeSpec

/-- ValueOption.__setattr__ for `name == "value"`: when an on_change callback
is set and the recursion-guard attribute is absent, set the guard, invoke the
callback (counting the invocation), delete the guard, and only then store the
assigned value.  `fuel` bounds the callback-reentry depth; the guard makes
depth 1 sufficient. -/
def setValueAttr (cb : Option OnChangeSpec) : Nat → ValueOptionState → ℚ → ValueOptionState
  | fuel, s, v =>
    match cb with
    | none => { s with value := v }
    | some spec =>
      if s.guard then { s with value := v }
      else
        match fuel with
        | 0 => s
        | f + 1 =>
          let s1 : ValueOptionState := { s with guard := true, calls := s.calls + 1 }
          let s2 :=
            match spec with
            | .assignValue g => setValueAttr cb f s1 (g v)
            | .untouched => s1
          let s3 : ValueOptionState := { s2 with guard := false }
          { s3 with value := v }

/- Predicates used by the statements below. -/

/-- The value-holding option kinds (the ValueOption subclasses). -/
def OptionNode.isValueKind : OptionNode → Bool
  | .slider _ => true
  | .spinner _ => true
  | .boolOpt _ => true
  | .dropdown _ => true
  | .hidden _ => true
  | .keybindOpt _ => true
  | _ => false

/-- The valid domain of a value option's current value: an integral value
for an integer-flagged slider, a configured choice for spinner/dropdown,
anything for the other kinds. -/
def OptionNode.inDomain : OptionNode → Prop
  | .slider o => o.is_integer = true → ∃ k : ℤ, o.value = .fin (k : ℚ)
  | .spinner o => o.choices.contains o.value = true
  | .dropdown o => o.choices.contains o.value = true
  | _ => True

/-- Pointwise: each option whose identifier is absent from the settings dict
is unchanged in the result list (which has the same shape). -/
def unchangedWhenAbsent (kvs : JSONPairs) : OptionNodeList → OptionNodeList → Prop
  | .nil, .nil => True
  | .cons a as, .cons b bs =>
    (kvs.hasKey a.identifier = false → b = a) ∧ unchangedWhenAbsent kvs as bs
  | _, _ => False

/-- Every event is a dispatch to an option whose identifier is present in
the settings dict. -/
def eventsOnlyPresent (kvs : JSONPairs) (evs : List LoadEvent) : Bool :=
  evs.all fun ev =>
    match ev with
    | .applyOption idf _ => kvs.hasKey idf
    | _ => false

/-- Whether some option of the list serializes to a non-absent value. -/
def OptionNodeList.anyProducesValue : OptionNodeList → Bool
  | .nil => false
  | .cons hd tl => hd.toJson.isSome || tl.anyProducesValue

/- Helper lemmas. -/

theorem pyRound_intCast (k : ℤ) : pyRound (k : ℚ) = k := by
  unfold pyRound
  rw [Int.floor_intCast]
  norm_num

theorem unchangedWhenAbsent_refl (kvs : JSONPairs) :
    ∀ l : OptionNodeList, unchangedWhenAbsent kvs l l
  | .nil => trivial
  | .cons _ tl => ⟨fun _ => rfl, unchangedWhenAbsent_refl kvs tl⟩

theorem hasKey_of_lookup_some {kvs : JSONPairs} {idf : String} {v : JSON}
    (h : kvs.lookup idf = some v) : kvs.hasKey idf = true := by
  simp [JSONPairs.hasKey, h]

theorem load_options_dict_unchanged (kvs : JSONPairs) :
    ∀ opts : OptionNodeList, unchangedWhenAbsent kvs opts (load_options_dict opts kvs).1
  | .nil => trivial
  | .cons hd tl => by
    have ih := load_options_dict_unchanged kvs tl
    have ihr := unchangedWhenAbsent_refl kvs tl
    simp only [load_options_dict]
    split
    · exact ⟨fun _ => rfl, ih⟩
    · rename_i v hlk
      have hkey := hasKey_of_lookup_some hlk
      split
      · exact ⟨fun habs => by simp [hkey] at habs, ih⟩
      · exact ⟨fun habs => by simp [hkey] at habs, ihr⟩

theorem fromJsonChildren_unchanged (kvs : JSONPairs) :
    ∀ ch : OptionNodeList, unchangedWhenAbsent kvs ch (ch.fromJsonChildren kvs).1
  | .nil => trivial
  | .cons hd tl => by
    have ih := fromJsonChildren_unchanged kvs tl
    have ihr := unchangedWhenAbsent_refl kvs tl
    simp only [OptionNodeList.fromJsonChildren]
    split
    · exact ⟨fun _ => rfl, ih⟩
    · rename_i v hlk
      have hkey := hasKey_of_lookup_some hlk
      split
      · exact ⟨fun habs => by simp [hkey] at habs, ih⟩
      · exact ⟨fun habs => by simp [hkey] at habs, ihr⟩

theorem load_options_dict_events_present (kvs : JSONPairs) :
    ∀ opts : OptionNodeList, eventsOnlyPresent kvs (load_options_dict opts kvs).2.1 = true
  | .nil => rfl
  | .cons hd tl => by
    have ih := load_options_dict_events_present kvs tl
    simp only [load_options_dict]
    split
    · exact ih
    · rename_i v hlk
      have hkey := hasKey_of_lookup_some hlk
      split
      · simp only [eventsOnlyPresent, List.all_cons, Bool.and_eq_true] at ih ⊢
        exact ⟨hkey, ih⟩
      · simp only [eventsOnlyPresent, List.all_cons, List.all_nil, Bool.and_true]
        exact hkey

theorem sliderStore_snd (o : SliderOption) (x : PyFloat) :
    (sliderStore o x).2 = none ∨ (sliderStore o x).2 = some PyErr.overflowError := by
  unfold sliderStore
  cases x with
  | fin q => by_cases hi : o.is_integer = true <;> simp [pyRoundExc, hi]
  | posInf => by_cases hi : o.is_integer = true <;> simp [pyRoundExc, hi]
  | negInf => by_cases hi : o.is_integer = true <;> simp [pyRoundExc, hi]
  | nan => by_cases hi : o.is_integer = true <;> simp [pyRoundExc, hi]

mutual

theorem fromJson_err_char (n : OptionNode) (v : JSON) :
    (OptionNode.fromJson n v).2 = none ∨
      (((OptionNode.fromJson n v).2 = some PyErr.typeError ∨
        (OptionNode.fromJson n v).2 = some PyErr.overflowError) ∧ n.hasSlider = true) :=
  match n with
  | .slider o => by
    simp only [OptionNode.fromJson]
    split
    · rename_i x _
      rcases sliderStore_snd o x with h | h
      exacts [Or.inl h, Or.inr ⟨Or.inr h, rfl⟩]
    · exact Or.inl rfl
    · rename_i e hne _
      cases e
      · exact absurd rfl hne
      · exact Or.inr ⟨Or.inl rfl, rfl⟩
      · exact Or.inr ⟨Or.inr rfl, rfl⟩
  | .spinner o => by
    simp only [OptionNode.fromJson]
    split <;> exact Or.inl rfl
  | .boolOpt o => Or.inl rfl
  | .dropdown o => by
    simp only [OptionNode.fromJson]
    split <;> exact Or.inl rfl
  | .hidden o => Or.inl rfl
  | .keybindOpt o => by
    simp only [OptionNode.fromJson]
    split <;> exact Or.inl rfl
  | .button o => Or.inl rfl
  | .grouped idf ch => by
    cases v with
    | obj kvs =>
      rcases fromJsonChildren_err_char ch kvs with h | ⟨h1, h2⟩
      · exact Or.inl h
      · exact Or.inr ⟨h1, h2⟩
    | null => exact Or.inl rfl
    | bool b => exact Or.inl rfl
    | int n => exact Or.inl rfl
    | num q => exact Or.inl rfl
    | str s => exact Or.inl rfl
    | arr xs => exact Or.inl rfl
  | .nested idf ch => by
    cases v with
    | obj kvs =>
      rcases fromJsonChildren_err_char ch kvs with h | ⟨h1, h2⟩
      · exact Or.inl h
      · exact Or.inr ⟨h1, h2⟩
    | null => exact Or.inl rfl
    | bool b => exact Or.inl rfl
    | int n => exact Or.inl rfl
    | num q => exact Or.inl rfl
    | str s => exact Or.inl rfl
    | arr xs => exact Or.inl rfl

theorem fromJsonChildren_err_char (l : OptionNodeList) (kvs : JSONPairs) :
    (l.fromJsonChildren kvs).2 = none ∨
      (((l.fromJsonChildren kvs).2 = some PyErr.typeError ∨
        (l.fromJsonChildren kvs).2 = some PyErr.overflowError) ∧ l.hasSliderAmong = true) :=
  match l with
  | .nil => Or.inl rfl
  | .cons hd tl => by
    simp only [OptionNodeList.fromJsonChildren]
    split
    · rcases fromJsonChildren_err_char tl kvs with h | ⟨h1, h2⟩
      · exact Or.inl h
      · exact Or.inr ⟨h1, by simp [OptionNodeList.hasSliderAmong, h2]⟩
    · rename_i v hlk
      split
      · rename_i hd' hfj
        rcases fromJsonChildren_err_char tl kvs with h | ⟨h1, h2⟩
        · exact Or.inl h
        · exact Or.inr ⟨h1, by simp [OptionNodeList.hasSliderAmong, h2]⟩
      · rename_i hd' e hfj
        rcases fromJson_err_char hd v with h | ⟨h1, h2⟩
        · rw [hfj] at h; cases h
        · rcases h1 with h1 | h1 <;> rw [hfj] at h1 <;> injection h1 with h1
          · exact Or.inr ⟨Or.inl (by rw [h1]),
              by simp [OptionNodeList.hasSliderAmong, h2]⟩
          · exact Or.inr ⟨Or.inr (by rw [h1]),
              by simp [OptionNodeList.hasSliderAmong, h2]⟩

end

theorem enableMod_notin_load_options_dict (kvs : JSONPairs) :
    ∀ opts : OptionNodeList, LoadEvent.enableMod ∉ (load_options_dict opts kvs).2.1
  | .nil => by simp [load_options_dict]
  | .cons hd tl => by
    have ih := enableMod_notin_load_options_dict kvs tl
    simp only [load_options_dict]
    split
    · exact ih
    · split
      · simpa using ih
      · simp

theorem enableMod_notin_loadOptionsSection (opts : OptionNodeList) (v : JSON) :
    LoadEvent.enableMod ∉ (loadOptionsSection opts v).2.1 := by
  cases v with
  | obj kvs => exact enableMod_notin_load_options_dict kvs opts
  | null => simp [loadOptionsSection]
  | bool b => simp [loadOptionsSection]
  | int n => simp [loadOptionsSection]
  | num q => simp [loadOptionsSection]
  | str s => simp [loadOptionsSection]
  | arr xs => simp [loadOptionsSection]

theorem enableMod_notin_loadKeybindsObj (kvs : JSONPairs) :
    ∀ ks : List KeybindModel, LoadEvent.enableMod ∉ (loadKeybindsObj ks kvs).2
  | [] => by simp [loadKeybindsObj]
  | k :: ks => by
    have ih := enableMod_notin_loadKeybindsObj kvs ks
    simp only [loadKeybindsObj]
    split
    · exact ih
    · simpa using ih

theorem enableMod_notin_loadKeybindsSection (ks : List KeybindModel) (v : JSON) :
    LoadEvent.enableMod ∉ (loadKeybindsSection ks v).2.1 := by
  cases v with
  | obj kvs => exact enableMod_notin_loadKeybindsObj kvs ks
  | null => simp [loadKeybindsSection]
  | bool b => simp [loadKeybindsSection]
  | int n => simp [loadKeybindsSection]
  | num q => simp [loadKeybindsSection]
  | str s => simp [loadKeybindsSection]
  | arr xs => simp [loadKeybindsSection]

theorem append_singleton_split {α : Type} (x : α) :
    ∀ (l pre post : List α), x ∉ l → l ++ [x] = pre ++ x :: post → post = []
  | [], pre, post, _, h => by
    cases pre with
    | nil => simpa using h.symm
    | cons p ps =>
      exfalso
      have hlen := congrArg List.length h
      simp at hlen
  | a :: l', pre, post, hx, h => by
    cases pre with
    | nil =>
      exfalso
      simp only [List.cons_append, List.nil_append] at h
      injection h with h1 h2
      exact hx (h1 ▸ List.mem_cons_self a l')
    | cons p ps =>
      simp only [List.cons_append] at h
      injection h with h1 h2
      exact append_singleton_split x l' ps post (fun hm => hx (List.mem_cons_of_mem a hm)) h2

theorem create_options_dict_len_pos :
    ∀ l : OptionNodeList, (0 < (create_options_dict l).length) ↔ l.anyProducesValue = true
  | .nil => by simp [create_options_dict, OptionNodeList.anyProducesValue, JSONPairs.length]
  | .cons hd tl => by
    have ih := create_options_dict_len_pos tl
    simp only [create_options_dict, OptionNodeList.anyProducesValue]
    split
    · rename_i hj
      simp [hj, ih]
    · rename_i j hj
      simp [hj, JSONPairs.length]

theorem keybindSettingsList_len_pos :
    ∀ ks : List KeybindModel,
      (0 < (keybindSettingsList ks).length) ↔ ks.any (fun k => k.is_rebindable) = true
  | [] => by simp [keybindSettingsList]
  | k :: ks => by
    have ih := keybindSettingsList_len_pos ks
    simp only [keybindSettingsList, List.any_cons]
    split
    · rename_i hr
      simp [hr]
    · rename_i hr
      simp only [Bool.not_eq_true] at hr
      simp [hr, ih]

theorem saveOptionsSection_isSome (opts : OptionNodeList) :
    (saveOptionsSection opts).isSome = opts.anyProducesValue := by
  unfold saveOptionsSection
  cases opts with
  | nil => simp [OptionNodeList.length, OptionNodeList.anyProducesValue]
  | cons hd tl =>
    have hlen : 0 < (OptionNodeList.cons hd tl).length := by
      simp [OptionNodeList.length]
    rw [if_pos hlen]
    by_cases hd2 : 0 < (create_options_dict (OptionNodeList.cons hd tl)).length
    · rw [if_pos hd2]
      have := (create_options_dict_len_pos (OptionNodeList.cons hd tl)).mp hd2
      simp [this]
    · rw [if_neg hd2]
      have : ¬ (OptionNodeList.cons hd tl).anyProducesValue = true :=
        fun hc => hd2 ((create_options_dict_len_pos _).mpr hc)
      simp only [Bool.not_eq_true] at this
      simp [this]

theorem saveKeybindsSection_isSome (ks : List KeybindModel) :
    (saveKeybindsSection ks).isSome = ks.any (fun k => k.is_rebindable) := by
  unfold saveKeybindsSection
  cases ks with
  | nil => simp
  | cons k tl =>
    have hlen : 0 < (k :: tl).length := by simp
    rw [if_pos hlen]
    by_cases hd2 : 0 < (keybindSettingsList (k :: tl)).length
    · rw [if_pos hd2]
      have := (keybindSettingsList_len_pos (k :: tl)).mp hd2
      simp [this]
    · rw [if_neg hd2]
      have : ¬ (k :: tl).any (fun k => k.is_rebindable) = true :=
        fun hc => hd2 ((keybindSettingsList_len_pos _).mpr hc)
      simp only [Bool.not_eq_true] at this
      simp [this]

theorem enableMod_notin_optionsSectionResult (m : ModModel) (settings : JSONPairs) :
    LoadEvent.enableMod ∉ (optionsSectionResult m settings).2.1 := by
  unfold optionsSectionResult
  cases settings.lookup "options" with
  | none => simp
  | some v => exact enableMod_notin_loadOptionsSection m.options v

theorem enableMod_notin_keybindsSectionResult (m : ModModel) (settings : JSONPairs) :
    LoadEvent.enableMod ∉ (keybindsSectionResult m settings).2.1 := by
  unfold keybindsSectionResult
  cases settings.lookup "keybinds" with
  | none => simp
  | some v => exact enableMod_notin_loadKeybindsSection m.keybinds v

/- Claim theorems. -/

/-- C8: constructing a numeric-range slider with a step size strictly
exceeding the allowed range max_value - min_value raises a construction-time
ValueError, and only such steps do; in particular step=20 with min=0 and
max=10 raises. -/
theorem c8_slider_step_validation :
    (∀ (idf : String) (value mn mx st : ℚ) (isInt : Bool),
        (∃ msg, SliderOption.construct idf value mn mx st isInt = .error msg) ↔ st > mx - mn) ∧
    SliderOption.construct "o" 5 0 10 20 true
      = .error "Can't give slider option a step larger than its allowed range" := by
  constructor
  · intro idf value mn mx st isInt
    constructor
    · rintro ⟨msg, hmsg⟩
      by_contra hc
      simp [SliderOption.construct, hc] at hmsg
    · intro h
      exact ⟨"Can't give slider option a step larger than its allowed range",
        by simp [SliderOption.construct, h]⟩
  · simp only [SliderOption.construct]
    norm_num

/-- C9: with an on_change callback set and the recursion guard absent,
assigning to .value invokes the callback exactly once (the call counter
increments by one) and stores the assigned value only after the callback
returns: even a callback that itself assigns g(v) to .value ends with the
outer value v stored (the inner assignment went through the guarded plain
store and did not re-trigger the callback). -/
theorem c9_on_change_guard (spec : OnChangeSpec) (s : ValueOptionState) (v : ℚ) (f : Nat)
    (hg : s.guard = false) :
    setValueAttr (some spec) (f + 1) s v
      = { value := v, guard := false, calls := s.calls + 1 } := by
  cases spec with
  | assignValue g =>
    have hinner : setValueAttr (some (OnChangeSpec.assignValue g)) f
        { value := s.value, guard := true, calls := s.calls + 1 } (g v)
        = { value := g v, guard := true, calls := s.calls + 1 } := by
      unfold setValueAttr
      simp
    simp only [setValueAttr, hg]
    simp [hinner]
  | untouched =>
    simp only [setValueAttr, hg]
    rfl

/-- C9 witness: a callback that increments the assigned value; the stored
value is still the assigned 5 and the callback ran once. -/
theorem c9_witness :
    setValueAttr (some (.assignValue (fun q => q + 1))) 1 ⟨3, false, 0⟩ 5
      = ⟨5, false, 1⟩ :=
  c9_on_change_guard (.assignValue (fun q => q + 1)) ⟨3, false, 0⟩ 5 0 rfl

/-- C3: SliderOption._from_json accepts any value float() converts to a
number and stores it, rounded to the nearest integer when the option is
integer-flagged. -/
theorem c3_slider_numeric_coercion (o : SliderOption) (v : JSON) (x : ℚ)
    (h : pyFloat v = .ok (.fin x)) :
    OptionNode.fromJson (.slider o) v
      = (.slider (if o.is_integer then { o with value := .fin ((pyRound x : ℤ) : ℚ) }
                  else { o with value := .fin x }), none) := by
  by_cases hi : o.is_integer = true
  · simp [OptionNode.fromJson, h, sliderStore, pyRoundExc, hi]
  · simp [OptionNode.fromJson, h, sliderStore, hi]

set_option maxRecDepth 8192 in
/-- C3 witness: the spec's example - an integer slider with min=0, max=10,
step=1 loading the string "7.6" stores 8. -/
theorem c3_witness :
    OptionNode.fromJson
      (.slider { identifier := "o", value := .fin 5, min_value := 0, max_value := 10 })
      (.str "7.6")
    = (.slider { identifier := "o", value := .fin 8, min_value := 0, max_value := 10 },
        none) := by
  have h := c3_slider_numeric_coercion
    { identifier := "o", value := .fin 5, min_value := 0, max_value := 10 }
    (.str "7.6") (38 / 5) (by decide)
  exact h

/-- C4: SpinnerOption._from_json and DropdownOption._from_json update the
value exactly when the str() conversion of the incoming value is contained
in the configured choices (case-sensitive string equality); otherwise the
current value is kept (the error is logged). -/
theorem c4_choice_exact_match :
    (∀ (o : SpinnerOption) (v : JSON),
        (o.choices.contains (pyStr v) = true →
          OptionNode.fromJson (.spinner o) v = (.spinner { o with value := pyStr v }, none)) ∧
        (o.choices.contains (pyStr v) = false →
          OptionNode.fromJson (.spinner o) v = (.spinner o, none))) ∧
    (∀ (o : DropdownOption) (v : JSON),
        (o.choices.contains (pyStr v) = true →
          OptionNode.fromJson (.dropdown o) v = (.dropdown { o with value := pyStr v }, none)) ∧
        (o.choices.contains (pyStr v) = false →
          OptionNode.fromJson (.dropdown o) v = (.dropdown o, none))) := by
  constructor <;> intro o v <;> refine ⟨fun h => ?_, fun h => ?_⟩ <;>
    simp only [OptionNode.fromJson] <;> split <;>
    first
      | rfl
      | (rename_i hc; rw [h] at hc; cases hc)

/-- C4 witness: the spec's example - choices ["a","b","c"], current value
"b", loading "z" leaves the value "b". -/
theorem c4_witness :
    OptionNode.fromJson
      (.spinner { identifier := "s", value := "b", choices := ["a", "b", "c"] })
      (.str "z")
    = (.spinner { identifier := "s", value := "b", choices := ["a", "b", "c"] }, none) :=
  (c4_choice_exact_match.1
    { identifier := "s", value := "b", choices := ["a", "b", "c"] } (.str "z")).2 (by decide)

/-- C10: deserializing a number into a slider performs no clamping: a value
outside [min_value, max_value] is stored as-is (after the integer rounding),
independently of the configured range. -/
theorem c10_no_clamping (o : SliderOption) (v : JSON) (x : ℚ)
    (h : pyFloat v = .ok (.fin x)) (_houtside : x < o.min_value ∨ o.max_value < x) :
    (OptionNode.fromJson (.slider o) v).1
      = .slider (if o.is_integer then { o with value := .fin ((pyRound x : ℤ) : ℚ) }
                 else { o with value := .fin x }) := by
  by_cases hi : o.is_integer = true
  · simp [OptionNode.fromJson, h, sliderStore, pyRoundExc, hi]
  · simp [OptionNode.fromJson, h, sliderStore, hi]

/-- C10 witness: loading 999 into a slider with min=0, max=10 stores 999. -/
theorem c10_witness :
    (OptionNode.fromJson
      (.slider { identifier := "o", value := .fin 5, min_value := 0, max_value := 10 })
      (.num (.fin 999))).1
    = .slider { identifier := "o", value := .fin 999, min_value := 0, max_value := 10 } := by
  have h := c10_no_clamping
    { identifier := "o", value := .fin 5, min_value := 0, max_value := 10 }
    (.num (.fin 999)) 999 rfl (Or.inr (by norm_num))
  exact h

/-- C2: for every value-holding option kind whose current value is inside
the kind's valid domain (integral for an integer-flagged slider, a
configured choice for spinner/dropdown), feeding _to_json's output back to
_from_json leaves the option unchanged (round-trip identity, no escaping
exception). -/
theorem c2_roundtrip (n : OptionNode) (hk : n.isValueKind = true) (hd : n.inDomain)
    (j : JSON) (hj : n.toJson = some j) :
    n.fromJson j = (n, none) := by
  cases n with
  | slider o =>
    simp only [OptionNode.toJson] at hj
    injection hj with hj
    subst hj
    have hs : sliderStore o o.value = (o, none) := by
      by_cases hi : o.is_integer = true
      · obtain ⟨k, hk2⟩ := hd hi
        rw [hk2]
        unfold sliderStore
        rw [if_pos hi]
        simp only [pyRoundExc]
        rw [pyRound_intCast, ← hk2]
      · unfold sliderStore
        rw [if_neg hi]
    simp only [OptionNode.fromJson, pyFloat, hs]
  | spinner o =>
    simp only [OptionNode.toJson] at hj
    injection hj with hj
    subst hj
    have hc : o.choices.contains o.value = true := hd
    simp only [OptionNode.fromJson]
    split
    · rfl
    · rename_i hcc
      rw [show pyStr (.str o.value) = o.value from rfl, hc] at hcc
  | boolOpt o =>
    simp only [OptionNode.toJson] at hj
    injection hj with hj
    subst hj
    simp only [OptionNode.fromJson, boolFromJson, pyTruthy]
  | dropdown o =>
    simp only [OptionNode.toJson] at hj
    injection hj with hj
    subst hj
    have hc : o.choices.contains o.value = true := hd
    simp only [OptionNode.fromJson]
    split
    · rfl
    · rename_i hcc
      rw [show pyStr (.str o.value) = o.value from rfl, hc] at hcc
  | hidden o =>
    simp only [OptionNode.toJson] at hj
    injection hj with hj
    subst hj
    rfl
  | keybindOpt o =>
    simp only [OptionNode.toJson] at hj
    injection hj with hj
    subst hj
    obtain ⟨idf, val, rb⟩ := o
    cases val with
    | none => rfl
    | some s => rfl
  | button o => simp [OptionNode.isValueKind] at hk
  | grouped idf ch => simp [OptionNode.isValueKind] at hk
  | nested idf ch => simp [OptionNode.isValueKind] at hk

/-- C2 witness: a spinner whose value "b" is among its choices round-trips. -/
theorem c2_witness :
    OptionNode.fromJson (.spinner { identifier := "s", value := "b", choices := ["a", "b"] })
      (.str "b")
    = (.spinner { identifier := "s", value := "b", choices := ["a", "b"] }, none) :=
  c2_roundtrip (.spinner { identifier := "s", value := "b", choices := ["a", "b"] })
    rfl (show (["a", "b"] : List String).contains "b" = true by decide) (.str "b") rfl

/-- C5: loading an options document, at the top level (load_options_dict) or
into a composite group (the _from_json child loop), leaves every option
whose identifier is absent from the document unchanged, and dispatches only
to options whose identifiers are present. -/
theorem c5_absent_keys_untouched :
    (∀ (opts : OptionNodeList) (kvs : JSONPairs),
        unchangedWhenAbsent kvs opts (load_options_dict opts kvs).1 ∧
        eventsOnlyPresent kvs (load_options_dict opts kvs).2.1 = true) ∧
    (∀ (ch : OptionNodeList) (kvs : JSONPairs),
        unchangedWhenAbsent kvs ch (ch.fromJsonChildren kvs).1) :=
  ⟨fun opts kvs =>
    ⟨load_options_dict_unchanged kvs opts, load_options_dict_events_present kvs opts⟩,
   fun ch kvs => fromJsonChildren_unchanged kvs ch⟩

/-- C5 witness: a two-option list loaded from a document holding only the
first identifier leaves the second option untouched. -/
theorem c5_witness :
    unchangedWhenAbsent (.cons "a" (.int 1) .nil)
      (.cons (.boolOpt { identifier := "a", value := false })
        (.cons (.boolOpt { identifier := "b", value := true }) .nil))
      (load_options_dict
        (.cons (.boolOpt { identifier := "a", value := false })
          (.cons (.boolOpt { identifier := "b", value := true }) .nil))
        (.cons "a" (.int 1) .nil)).1 :=
  (c5_absent_keys_untouched.1
    (.cons (.boolOpt { identifier := "a", value := false })
      (.cons (.boolOpt { identifier := "b", value := true }) .nil))
    (.cons "a" (.int 1) .nil)).1

/-- C1 counterexample: the claim "deserializing never raises" fails on the
code: SliderOption._from_json catches only ValueError, so a JSON null (a
value float() rejects with TypeError) propagates an uncaught TypeError. -/
theorem c1_counterexample :
    OptionNode.fromJson
      (.slider { identifier := "opt", value := .fin 5, min_value := 0, max_value := 10 })
      .null
    = (.slider { identifier := "opt", value := .fin 5, min_value := 0, max_value := 10 },
        some PyErr.typeError) := rfl

/-- C1 (amended): _from_json raises only out of SliderOption._from_json,
whose except clause catches ValueError alone.  A value float() rejects by
type (null, array, object) escapes as TypeError with the value unchanged;
an int too large for a float escapes as float()'s OverflowError with the
value unchanged; and on an integer-flagged slider a value converting to an
infinity escapes as the OverflowError of round(), with the value already
overwritten by that infinity.  In the non-raising logged cases the prior
value is kept unchanged (slider unparseable string, spinner/dropdown
out-of-set string, group non-mapping value) with one exception: a value
converting to NaN on an integer-flagged slider, whose ValueError from
round() is caught and logged but leaves the value already overwritten with
NaN. -/
theorem c1_amended_failure_policy :
    (∀ (n : OptionNode) (v : JSON) (e : PyErr),
        (OptionNode.fromJson n v).2 = some e →
          (e = PyErr.typeError ∨ e = PyErr.overflowError) ∧ n.hasSlider = true) ∧
    (∀ (o : SliderOption) (v : JSON) (e : PyErr),
        pyFloat v = .error e → e ≠ PyErr.valueError →
          OptionNode.fromJson (.slider o) v = (.slider o, some e)) ∧
    (∀ (o : SliderOption) (v : JSON),
        pyFloat v = .error PyErr.valueError →
          OptionNode.fromJson (.slider o) v = (.slider o, none)) ∧
    (∀ (o : SliderOption) (v : JSON) (x : PyFloat),
        pyFloat v = .ok x → (x = PyFloat.posInf ∨ x = PyFloat.negInf) →
          o.is_integer = true →
          OptionNode.fromJson (.slider o) v
            = (.slider { o with value := x }, some PyErr.overflowError)) ∧
    (∀ (o : SliderOption) (v : JSON),
        pyFloat v = .ok PyFloat.nan → o.is_integer = true →
          OptionNode.fromJson (.slider o) v
            = (.slider { o with value := .nan }, none)) ∧
    (∀ (o : SpinnerOption) (v : JSON),
        o.choices.contains (pyStr v) = false →
          OptionNode.fromJson (.spinner o) v = (.spinner o, none)) ∧
    (∀ (o : DropdownOption) (v : JSON),
        o.choices.contains (pyStr v) = false →
          OptionNode.fromJson (.dropdown o) v = (.dropdown o, none)) ∧
    (∀ (idf : String) (ch : OptionNodeList) (v : JSON),
        (∀ kvs, v ≠ .obj kvs) →
          OptionNode.fromJson (.grouped idf ch) v = (.grouped idf ch, none)) ∧
    (∀ (idf : String) (ch : OptionNodeList) (v : JSON),
        (∀ kvs, v ≠ .obj kvs) →
          OptionNode.fromJson (.nested idf ch) v = (.nested idf ch, none)) := by
  refine ⟨?_, ?_, ?_, ?_, ?_, ?_, ?_, ?_, ?_⟩
  · intro n v e h
    rcases fromJson_err_char n v with hc | ⟨h1, h2⟩
    · rw [h] at hc; cases hc
    · refine ⟨?_, h2⟩
      rcases h1 with h1 | h1 <;> rw [h] at h1 <;> injection h1 with h1
      · exact Or.inl h1
      · exact Or.inr h1
  · intro o v e h hne
    cases e with
    | valueError => exact absurd rfl hne
    | typeError => simp [OptionNode.fromJson, h]
    | overflowError => simp [OptionNode.fromJson, h]
  · intro o v h
    simp [OptionNode.fromJson, h]
  · intro o v x h hx hi
    rcases hx with hx | hx <;> subst hx <;>
      simp [OptionNode.fromJson, h, sliderStore, pyRoundExc, hi]
  · intro o v h hi
    simp [OptionNode.fromJson, h, sliderStore, pyRoundExc, hi]
  · intro o v h
    simp only [OptionNode.fromJson]
    split
    · rename_i hcc; rw [h] at hcc; cases hcc
    · rfl
  · intro o v h
    simp only [OptionNode.fromJson]
    split
    · rename_i hcc; rw [h] at hcc; cases hcc
    · rfl
  · intro idf ch v h
    cases v with
    | obj kvs => exact absurd rfl (h kvs)
    | null => rfl
    | bool b => rfl
    | int n => rfl
    | num q => rfl
    | str s => rfl
    | arr xs => rfl
  · intro idf ch v h
    cases v with
    | obj kvs => exact absurd rfl (h kvs)
    | null => rfl
    | bool b => rfl
    | int n => rfl
    | num q => rfl
    | str s => rfl
    | arr xs => rfl

/-- C1 witness: the subtlest amended case concretely - loading "nan" into
an integer-flagged slider logs the caught ValueError of round() yet leaves
the value overwritten with NaN, not the prior 5. -/
theorem c1_witness :
    OptionNode.fromJson
      (.slider { identifier := "o", value := .fin 5, min_value := 0, max_value := 10 })
      (.str "nan")
    = (.slider { identifier := "o", value := .nan, min_value := 0, max_value := 10 },
        none) :=
  c1_amended_failure_policy.2.2.2.2.1
    { identifier := "o", value := .fin 5, min_value := 0, max_value := 10 }
    (.str "nan") (by decide) rfl

/-- C7: during default_load_mod_settings of a parsed document that raises no
exception, the enable step occurs in the load's event sequence if and only
if the mod auto-enables and the document's "enabled" entry is truthy
(defaulting to false when absent), and when it occurs it is the final event:
every option dispatch and keybind assignment precedes it. -/
theorem c7_enable_last (m : ModModel) (settings : JSONPairs)
    (hok : (default_load_mod_settings m (some settings)).2.2 = none) :
    (LoadEvent.enableMod ∈ (default_load_mod_settings m (some settings)).2.1 ↔
      (m.auto_enable = true ∧ pyTruthy (settings.lookupD "enabled" (.bool false)) = true)) ∧
    (∀ pre post,
      (default_load_mod_settings m (some settings)).2.1
          = pre ++ LoadEvent.enableMod :: post → post = []) := by
  have hno := enableMod_notin_optionsSectionResult m settings
  have hnk := enableMod_notin_keybindsSectionResult m settings
  simp only [default_load_mod_settings] at hok ⊢
  cases he1 : (optionsSectionResult m settings).2.2 with
  | some e =>
    rw [he1] at hok
    simp at hok
  | none =>
    rw [he1] at hok
    dsimp only at hok
    cases he2 : (keybindsSectionResult m settings).2.2 with
    | some e =>
      rw [he2] at hok
      simp at hok
    | none =>
      by_cases hcond :
          (m.auto_enable && pyTruthy (settings.lookupD "enabled" (.bool false))) = true
      · rw [if_pos hcond]
        rw [Bool.and_eq_true] at hcond
        constructor
        · exact iff_of_true (by simp) hcond
        · intro pre post hsplit
          dsimp only at hsplit
          refine append_singleton_split _ _ _ _ ?_ hsplit
          intro hmem
          rcases List.mem_append.mp hmem with hm | hm
          · exact hno hm
          · exact hnk hm
      · rw [if_neg hcond]
        constructor
        · refine iff_of_false ?_ ?_
          · intro hmem
            rcases List.mem_append.mp hmem with hm | hm
            · exact hno hm
            · exact hnk hm
          · rintro ⟨h1, h2⟩
            exact hcond (by rw [h1, h2]; rfl)
        · intro pre post hsplit
          exfalso
          dsimp only at hsplit
          have hmem : LoadEvent.enableMod ∈
              (optionsSectionResult m settings).2.1 ++ (keybindsSectionResult m settings).2.1 := by
            rw [hsplit]
            exact List.mem_append.mpr (Or.inr (List.mem_cons_self _ _))
          rcases List.mem_append.mp hmem with hm | hm
          · exact hno hm
          · exact hnk hm

/-- C7 witness: a mod with auto_enable whose document applies one option,
one keybind, and then enables - the enable event is present (and by the
theorem it is last). -/
theorem c7_witness :
    LoadEvent.enableMod ∈
      (default_load_mod_settings
        { has_settings_file := true,
          options := .cons (.boolOpt { identifier := "x", value := false }) .nil,
          keybinds := [{ identifier := "k", key := some "F1", is_rebindable := true }],
          auto_enable := true, is_enabled := false }
        (some (.cons "options" (.obj (.cons "x" (.bool true) .nil))
               (.cons "keybinds" (.obj (.cons "k" (.str "F2") .nil))
                (.cons "enabled" (.bool true) .nil))))).2.1 :=
  ((c7_enable_last
    { has_settings_file := true,
      options := .cons (.boolOpt { identifier := "x", value := false }) .nil,
      keybinds := [{ identifier := "k", key := some "F1", is_rebindable := true }],
      auto_enable := true, is_enabled := false }
    (.cons "options" (.obj (.cons "x" (.bool true) .nil))
      (.cons "keybinds" (.obj (.cons "k" (.str "F2") .nil))
        (.cons "enabled" (.bool true) .nil)))
    rfl).1).mpr ⟨rfl, rfl⟩

/-- C6: with a settings file configured, default_save_mod_settings writes a
document of at most three sections or deletes the file; the "options"
section is present exactly when some option serializes to a non-absent
value, "keybinds" exactly when some keybind is rebindable, "enabled"
exactly when the mod auto-enables; and the file is deleted, instead of an
empty document being written, exactly when all three sections are absent. -/
theorem c6_save_sections (m : ModModel) (h : m.has_settings_file = true) :
    (default_save_mod_settings m = .deleteFile ∨
      ∃ doc, default_save_mod_settings m = .writeFile doc) ∧
    (∀ doc, default_save_mod_settings m = .writeFile doc →
      doc.options.isSome = m.options.anyProducesValue ∧
      doc.keybinds.isSome = m.keybinds.any (fun k => k.is_rebindable) ∧
      doc.enabled.isSome = m.auto_enable) ∧
    (default_save_mod_settings m = .deleteFile ↔
      (m.options.anyProducesValue = false ∧
        m.keybinds.any (fun k => k.is_rebindable) = false ∧
        m.auto_enable = false)) := by
  have hopt := saveOptionsSection_isSome m.options
  have hkb := saveKeybindsSection_isSome m.keybinds
  cases ho : saveOptionsSection m.options with
  | none =>
    rw [ho] at hopt
    simp only [Option.isSome_none] at hopt
    cases hk2 : saveKeybindsSection m.keybinds with
    | none =>
      rw [hk2] at hkb
      simp only [Option.isSome_none] at hkb
      cases ha : m.auto_enable with
      | false =>
        have hr : default_save_mod_settings m = SaveAction.deleteFile := by
          unfold default_save_mod_settings
          rw [h]
          simp [ho, hk2, ha]
        refine ⟨Or.inl hr, fun doc hdoc => ?_, ?_⟩
        · rw [hr] at hdoc
          cases hdoc
        · rw [hr]
          exact ⟨fun _ => ⟨hopt.symm, hkb.symm, rfl⟩, fun _ => rfl⟩
      | true =>
        have hr : default_save_mod_settings m
            = SaveAction.writeFile { enabled := some m.is_enabled, options := none, keybinds := none } := by
          unfold default_save_mod_settings
          rw [h]
          simp [ho, hk2, ha]
        refine ⟨Or.inr ⟨_, hr⟩, fun doc hdoc => ?_, ?_⟩
        · rw [hr] at hdoc
          injection hdoc with hdoc
          subst hdoc
          exact ⟨hopt, hkb, rfl⟩
        · rw [hr]
          exact ⟨fun hx => SaveAction.noConfusion hx, fun hc => Bool.noConfusion (hc.2.2)⟩
    | some kl =>
      rw [hk2] at hkb
      simp only [Option.isSome_some] at hkb
      cases ha : m.auto_enable with
      | false =>
        have hr : default_save_mod_settings m
            = SaveAction.writeFile { enabled := none, options := none, keybinds := some kl } := by
          unfold default_save_mod_settings
          rw [h]
          simp [ho, hk2, ha]
        refine ⟨Or.inr ⟨_, hr⟩, fun doc hdoc => ?_, ?_⟩
        · rw [hr] at hdoc
          injection hdoc with hdoc
          subst hdoc
          exact ⟨hopt, hkb, rfl⟩
        · rw [hr]
          exact ⟨fun hx => SaveAction.noConfusion hx, fun hc => Bool.noConfusion (hkb.trans hc.2.1)⟩
      | true =>
        have hr : default_save_mod_settings m
            = SaveAction.writeFile { enabled := some m.is_enabled, options := none, keybinds := some kl } := by
          unfold default_save_mod_settings
          rw [h]
          simp [ho, hk2, ha]
        refine ⟨Or.inr ⟨_, hr⟩, fun doc hdoc => ?_, ?_⟩
        · rw [hr] at hdoc
          injection hdoc with hdoc
          subst hdoc
          exact ⟨hopt, hkb, rfl⟩
        · rw [hr]
          exact ⟨fun hx => SaveAction.noConfusion hx, fun hc => Bool.noConfusion (hc.2.2)⟩
  | some od =>
    rw [ho] at hopt
    simp only [Option.isSome_some] at hopt
    cases hk2 : saveKeybindsSection m.keybinds with
    | none =>
      rw [hk2] at hkb
      simp only [Option.isSome_none] at hkb
      cases ha : m.auto_enable with
      | false =>
        have hr : default_save_mod_settings m
            = SaveAction.writeFile { enabled := none, options := some od, keybinds := none } := by
          unfold default_save_mod_settings
          rw [h]
          simp [ho, hk2, ha]
        refine ⟨Or.inr ⟨_, hr⟩, fun doc hdoc => ?_, ?_⟩
        · rw [hr] at hdoc
          injection hdoc with hdoc
          subst hdoc
          exact ⟨hopt, hkb, rfl⟩
        · rw [hr]
          exact ⟨fun hx => SaveAction.noConfusion hx, fun hc => Bool.noConfusion (hopt.trans hc.1)⟩
      | true =>
        have hr : default_save_mod_settings m
            = SaveAction.writeFile { enabled := some m.is_enabled, options := some od, keybinds := none } := by
          unfold default_save_mod_settings
          rw [h]
          simp [ho, hk2, ha]
        refine ⟨Or.inr ⟨_, hr⟩, fun doc hdoc => ?_, ?_⟩
        · rw [hr] at hdoc
          injection hdoc with hdoc
          subst hdoc
          exact ⟨hopt, hkb, rfl⟩
        · rw [hr]
          exact ⟨fun hx => SaveAction.noConfusion hx, fun hc => Bool.noConfusion (hopt.trans hc.1)⟩
    | some kl =>
      rw [hk2] at hkb
      simp only [Option.isSome_some] at hkb
      cases ha : m.auto_enable with
      | false =>
        have hr : default_save_mod_settings m
            = SaveAction.writeFile { enabled := none, options := some od, keybinds := some kl } := by
          unfold default_save_mod_settings
          rw [h]
          simp [ho, hk2, ha]
        refine ⟨Or.inr ⟨_, hr⟩, fun doc hdoc => ?_, ?_⟩
        · rw [hr] at hdoc
          injection hdoc with hdoc
          subst hdoc
          exact ⟨hopt, hkb, rfl⟩
        · rw [hr]
          exact ⟨fun hx => SaveAction.noConfusion hx, fun hc => Bool.noConfusion (hopt.trans hc.1)⟩
      | true =>
        have hr : default_save_mod_settings m
            = SaveAction.writeFile { enabled := some m.is_enabled, options := some od, keybinds := some kl } := by
          unfold default_save_mod_settings
          rw [h]
          simp [ho, hk2, ha]
        refine ⟨Or.inr ⟨_, hr⟩, fun doc hdoc => ?_, ?_⟩
        · rw [hr] at hdoc
          injection hdoc with hdoc
          subst hdoc
          exact ⟨hopt, hkb, rfl⟩
        · rw [hr]
          exact ⟨fun hx => SaveAction.noConfusion hx, fun hc => Bool.noConfusion (hopt.trans hc.1)⟩

/-- C6 witness: an empty mod (no options, no keybinds, no auto-enable) with
a settings file: saving deletes the file instead of writing an empty
document. -/
theorem c6_witness :
    default_save_mod_settings
      { has_settings_file := true, options := .nil, keybinds := [],
        auto_enable := false, is_enabled := false } = SaveAction.deleteFile :=
  (c6_save_sections
    { has_settings_file := true, options := .nil, keybinds := [],
      auto_enable := false, is_enabled := false } rfl).2.2.mpr ⟨rfl, rfl, rfl⟩
